import Mathlib

/-!
Verification of the risk-scoring engine of `risk-agent-score`.

Shallow embedding of `src/services/risk_scoring/` (the four component
analyzers, the Gemini LLM collaborator's result contract, and the
orchestrator `RiskScoringEngine.calculate_overall_risk_score`).

Modelling conventions:
- Python floats are modelled as exact rationals (`ℚ`); the claims are about
  the arithmetic formulas, not IEEE rounding.
- A Python dict key read via `.get(k, d)` whose default `d` is the same at
  every call site is modelled as a plain field holding the value-after-get;
  `total_transactions` is read with default 0 in one analyzer and default 1
  in another, so it is an `Option ℚ`.
- Python truthiness of an optional number (`if x:`) is `x` present and
  nonzero (`qtruthy`); the identity test `x is not None` is `Option.isSome`.
- Reason strings keep the source's literal text; interpolated numbers are
  rendered with `toString` of the rational instead of printf-style
  formatting (the claims only compare whole reason texts of the constant
  branches).
- `round(x, 2)` is round-half-to-even at two decimals (`round2`).
- The Gemini network call is I/O; its outcome is an explicit input to the
  orchestrator (`LlmOutcome`): no API key, failed call, or a raw response
  that either JSON-decodes (`some GeminiJson`) or does not (`none`).
-/

namespace RiskAgent

/-- Clamp as in the source's `max(0, min(100, risk_score))`. -/
def clamp (x : ℚ) : ℚ := max 0 (min 100 x)

/-- Python truthiness of an optional number: present and nonzero. -/
def qtruthy (o : Option ℚ) : Bool := o.getD 0 ≠ 0

/-- Round-half-to-even of a rational to an integer (Python `round`). -/
def round_half_even (x : ℚ) : ℤ :=
  let f := ⌊x⌋
  let r := x - (f : ℚ)
  if r < 1/2 then f
  else if 1/2 < r then f + 1
  else if Even f then f else f + 1

/-- Python `round(x, 2)`. -/
def round2 (x : ℚ) : ℚ := (round_half_even (x * 100) : ℚ) / 100

/-! ## Configuration (`config.py`) -/

/-- `RISK_WEIGHTS` from `config.py` (must sum to 1.0). -/
structure RiskWeights where
  transaction_patterns : ℚ
  protocol_interactions : ℚ
  asset_concentration : ℚ
  activity_frequency : ℚ
  failure_rate : ℚ
deriving Repr, DecidableEq

def RISK_WEIGHTS : RiskWeights :=
  { transaction_patterns := 25/100
    protocol_interactions := 30/100
    asset_concentration := 20/100
    activity_frequency := 15/100
    failure_rate := 10/100 }

/-- The entries of `LLM_CONFIG` that the scoring path reads. -/
def LLM_CONFIG_rule_based_weight : ℚ := 6/10
def LLM_CONFIG_llm_weight : ℚ := 4/10

def STABLECOIN_SYMBOLS : List String :=
  ["usdt", "usdc", "dai", "busd", "frax", "tusd", "usdp", "gusd"]

/-! ## Input data model -/

/-- `patterns["time_analysis"]` (missing sub-dict reads default to the
`.get` defaults below). -/
structure TimeAnalysis where
  activity_frequency : ℚ := 0
  first_transaction : Option ℚ := none
  last_transaction : Option ℚ := none
deriving Repr, DecidableEq

structure GasAnalysis where
  avg_gas_price : ℚ := 0
deriving Repr, DecidableEq

structure ValueAnalysis where
  total_value_in : ℚ := 0
  total_value_out : ℚ := 0
  largest_transaction : ℚ := 0
deriving Repr, DecidableEq

structure AddressInteractions where
  interaction_diversity : ℚ := 0
deriving Repr, DecidableEq

/-- The `patterns` dict consumed by `TransactionPatternAnalyzer` and
`BehavioralPatternAnalyzer`. `hasError` models `"error" in patterns`. -/
structure Patterns where
  hasError : Bool := false
  total_transactions : Option ℚ := none
  successful_transactions : ℚ := 0
  high_value_transactions : ℚ := 0
  contract_interactions : ℚ := 0
  recent_activity : ℚ := 0
  unique_addresses : ℚ := 0
  time_analysis : TimeAnalysis := {}
  gas_analysis : GasAnalysis := {}
  value_analysis : ValueAnalysis := {}
  address_interactions : AddressInteractions := {}
deriving Repr, DecidableEq

/-- One record of the `protocols` list (§3 of the data model); the protocol
analyzer only tests the list for emptiness. -/
structure Protocol where
  name : String := ""
  risk_score : ℚ := 0
  tvl : ℚ := 0
  category : String := ""
deriving Repr, DecidableEq

/-- The `protocol_analysis` dict. `protocols = none` models the key being
absent (which subsumes the dict being empty/falsy: an empty dict has no
keys, so `not protocol_analysis or "protocols" not in protocol_analysis`
holds iff the key is absent). -/
structure ProtocolAnalysis where
  protocols : Option (List Protocol) := none
  raw_average_risk : Option ℚ := none
  high_risk_protocols : ℚ := 0
  total_protocols : Option ℚ := none
  diversification_score : ℚ := 1
  total_tvl_interacted : ℚ := 0
  concentration_penalty : ℚ := 0
  risk_distribution_very_high : ℚ := 0
deriving Repr, DecidableEq

structure Token where
  token_symbol : String := ""
deriving Repr, DecidableEq

/-- The `balances` dict consumed by `AssetConcentrationAnalyzer`. -/
structure Balances where
  eth_balance : ℚ := 0
  tokens : List Token := []
deriving Repr, DecidableEq

/-! ## ComponentResult -/

/-- A value of an analyzer's `metrics` dict. -/
inductive MetricValue where
  | num : ℚ → MetricValue
  | str : String → MetricValue
deriving Repr, DecidableEq

abbrev Metrics := List (String × MetricValue)

/-- The return dict of an analyzer. The early-return branches of
`TransactionPatternAnalyzer.calculate_risk` build a dict without a
`metrics` key, so the field is optional. -/
structure ComponentResult where
  risk_score : ℚ
  reasons : List String
  metrics : Option Metrics
deriving Repr, DecidableEq

/-! ## TransactionPatternAnalyzer (`components/transaction_patterns.py`) -/

namespace TransactionPatternAnalyzer

def low_success_rate : ℚ := 7/10
def moderate_success_rate : ℚ := 85/100
def high_success_rate : ℚ := 95/100
def high_activity_frequency : ℚ := 10
def very_high_activity_frequency : ℚ := 20
def low_activity_frequency : ℚ := 1/10
def high_value_tx_ratio : ℚ := 3/10
def very_high_value_tx_ratio : ℚ := 1/2
def high_contract_ratio : ℚ := 7/10
def very_high_contract_ratio : ℚ := 9/10
def low_contract_ratio : ℚ := 1/10
def recent_activity_threshold : ℚ := 50
def inactive_days : ℚ := 30
def high_gas_price : ℚ := 100
def low_address_diversity : ℚ := 1/10

def analyze_success_rate (patterns : Patterns) (total_txs : ℚ)
    (risk_score : ℚ) (reasons : List String) : ℚ × List String :=
  let success_txs := patterns.successful_transactions
  let success_rate := if 0 < total_txs then success_txs / total_txs else 0
  if success_rate < low_success_rate then
    (risk_score + 25, reasons ++ ["Low success rate: " ++ toString success_rate])
  else if success_rate < moderate_success_rate then
    (risk_score + 10, reasons ++ ["Moderate success rate: " ++ toString success_rate])
  else if high_success_rate < success_rate then
    (risk_score - 10, reasons ++ ["High success rate: " ++ toString success_rate])
  else (risk_score, reasons)

def analyze_activity_frequency (patterns : Patterns)
    (risk_score : ℚ) (reasons : List String) : ℚ × List String :=
  let frequency := patterns.time_analysis.activity_frequency
  if very_high_activity_frequency < frequency then
    (risk_score + 15, reasons ++ ["Very high activity: " ++ toString frequency ++ " tx/day"])
  else if high_activity_frequency < frequency then
    (risk_score + 5, reasons ++ ["High activity: " ++ toString frequency ++ " tx/day"])
  else if frequency < low_activity_frequency then
    (risk_score + 15, reasons ++ ["Very low activity: " ++ toString frequency ++ " tx/day"])
  else if 1 ≤ frequency ∧ frequency ≤ 5 then
    (risk_score - 5, reasons ++ ["Normal activity: " ++ toString frequency ++ " tx/day"])
  else (risk_score, reasons)

def analyze_high_value_transactions (patterns : Patterns) (total_txs : ℚ)
    (risk_score : ℚ) (reasons : List String) : ℚ × List String :=
  let high_value_txs := patterns.high_value_transactions
  let ratio := if 0 < total_txs then high_value_txs / total_txs else 0
  if very_high_value_tx_ratio < ratio then
    (risk_score + 15, reasons ++ ["High value transaction ratio: " ++ toString ratio])
  else if high_value_tx_ratio < ratio then
    (risk_score + 5, reasons ++ ["Moderate high-value transactions: " ++ toString ratio])
  else (risk_score, reasons)

def analyze_contract_interactions (patterns : Patterns) (total_txs : ℚ)
    (risk_score : ℚ) (reasons : List String) : ℚ × List String :=
  let contract_interactions := patterns.contract_interactions
  let ratio := if 0 < total_txs then contract_interactions / total_txs else 0
  if very_high_contract_ratio < ratio then
    (risk_score + 15, reasons ++ ["Very high DeFi usage: " ++ toString ratio])
  else if high_contract_ratio < ratio then
    (risk_score + 5, reasons ++ ["High DeFi usage: " ++ toString ratio])
  else if ratio < low_contract_ratio then
    (risk_score - 5, reasons ++ ["Low DeFi usage: " ++ toString ratio])
  else (risk_score, reasons)

def analyze_recent_activity (patterns : Patterns) (total_txs : ℚ)
    (risk_score : ℚ) (reasons : List String) : ℚ × List String :=
  let recent_activity := patterns.recent_activity
  if recent_activity = 0 ∧ 10 < total_txs then
    (risk_score + 20, reasons ++ ["No recent activity (" ++ toString inactive_days ++ " days)"])
  else if recent_activity_threshold < recent_activity then
    (risk_score + 10, reasons ++ ["Very active recently: " ++ toString recent_activity ++ " txs"])
  else (risk_score, reasons)

def analyze_gas_usage (patterns : Patterns)
    (risk_score : ℚ) (reasons : List String) : ℚ × List String :=
  let avg_gas_price := patterns.gas_analysis.avg_gas_price
  if high_gas_price < avg_gas_price then
    (risk_score + 10, reasons ++ ["High gas prices: " ++ toString avg_gas_price ++ " Gwei"])
  else (risk_score, reasons)

def analyze_address_diversity (patterns : Patterns) (total_txs : ℚ)
    (risk_score : ℚ) (reasons : List String) : ℚ × List String :=
  let unique_addresses := patterns.unique_addresses
  if 0 < total_txs then
    let address_diversity := unique_addresses / total_txs
    if address_diversity < low_address_diversity then
      (risk_score + 10, reasons ++ ["Low address diversity: " ++ toString address_diversity])
    else (risk_score, reasons)
  else (risk_score, reasons)

def calculate_risk (patterns : Patterns) : ComponentResult :=
  if patterns.hasError then
    { risk_score := 90, reasons := ["No transaction data available"], metrics := none }
  else
    let total_txs := patterns.total_transactions.getD 0
    if total_txs = 0 then
      { risk_score := 90, reasons := ["Inactive wallet - no transactions"], metrics := none }
    else
      let s1 := analyze_success_rate patterns total_txs 50 []
      let s2 := analyze_activity_frequency patterns s1.1 s1.2
      let s3 := analyze_high_value_transactions patterns total_txs s2.1 s2.2
      let s4 := analyze_contract_interactions patterns total_txs s3.1 s3.2
      let s5 := analyze_recent_activity patterns total_txs s4.1 s4.2
      let s6 := analyze_gas_usage patterns s5.1 s5.2
      let s7 := analyze_address_diversity patterns total_txs s6.1 s6.2
      let success_txs := patterns.successful_transactions
      let success_rate := if 0 < total_txs then success_txs / total_txs else 0
      let frequency := patterns.time_analysis.activity_frequency
      let high_value_txs := patterns.high_value_transactions
      let high_value_ratio := if 0 < total_txs then high_value_txs / total_txs else 0
      let contract_interactions := patterns.contract_interactions
      let contract_ratio := if 0 < total_txs then contract_interactions / total_txs else 0
      let recent_activity := patterns.recent_activity
      { risk_score := clamp s7.1
        reasons := s7.2
        metrics := some
          [("success_rate", .num success_rate),
           ("activity_frequency", .num frequency),
           ("high_value_ratio", .num high_value_ratio),
           ("contract_interaction_ratio", .num contract_ratio),
           ("recent_activity", .num recent_activity)] }

end TransactionPatternAnalyzer

/-! ## ProtocolRiskAnalyzer (`components/protocol_risk.py`) -/

namespace ProtocolRiskAnalyzer

def single_protocol_penalty : ℚ := 15
def low_diversification_penalty : ℚ := 5
def diversification_bonus : ℚ := 10
def low_diversification_threshold : ℚ := 3
def very_high_tvl : ℚ := 50000000000
def high_tvl : ℚ := 10000000000
def medium_tvl : ℚ := 1000000000
def low_tvl : ℚ := 100000000
def very_high_tvl_bonus : ℚ := 15
def high_tvl_bonus : ℚ := 10
def medium_tvl_bonus : ℚ := 5
def low_tvl_penalty : ℚ := 15
def very_high_risk_penalty : ℚ := 5

def analyze_high_risk_protocols (pa : ProtocolAnalysis)
    (risk_score : ℚ) (reasons : List String) : ℚ × List String :=
  let high_risk_count := pa.high_risk_protocols
  let total_protocols := pa.total_protocols.getD 1
  if 0 < high_risk_count then
    let high_risk_ratio := high_risk_count / total_protocols
    let penalty := min (high_risk_ratio * 30) 30
    (risk_score + penalty,
     reasons ++ ["High-risk protocols: " ++ toString high_risk_count ++ "/" ++ toString total_protocols])
  else (risk_score, reasons)

def analyze_diversification (pa : ProtocolAnalysis)
    (risk_score : ℚ) (reasons : List String) : ℚ × List String :=
  let diversification := pa.diversification_score
  if diversification = 1 then
    (risk_score + single_protocol_penalty, reasons ++ ["Single protocol category"])
  else if diversification < low_diversification_threshold then
    (risk_score + low_diversification_penalty,
     reasons ++ ["Low diversification: " ++ toString diversification ++ " categories"])
  else
    (risk_score - diversification_bonus,
     reasons ++ ["Good diversification: " ++ toString diversification ++ " categories"])

def analyze_tvl_factor (pa : ProtocolAnalysis)
    (risk_score : ℚ) (reasons : List String) : ℚ × List String :=
  let total_tvl := pa.total_tvl_interacted
  if very_high_tvl < total_tvl then
    (risk_score - very_high_tvl_bonus, reasons ++ ["Very high TVL protocols"])
  else if high_tvl < total_tvl then
    (risk_score - high_tvl_bonus, reasons ++ ["High TVL protocols"])
  else if medium_tvl < total_tvl then
    (risk_score - medium_tvl_bonus, reasons ++ ["Medium TVL protocols"])
  else if total_tvl < low_tvl then
    (risk_score + low_tvl_penalty, reasons ++ ["Low TVL protocols"])
  else (risk_score, reasons)

def analyze_concentration (pa : ProtocolAnalysis)
    (risk_score : ℚ) (reasons : List String) : ℚ × List String :=
  if 0 < pa.concentration_penalty then
    (risk_score, reasons ++ ["Protocol concentration risk"])
  else (risk_score, reasons)

def analyze_risk_distribution (pa : ProtocolAnalysis)
    (risk_score : ℚ) (reasons : List String) : ℚ × List String :=
  let very_high_count := pa.risk_distribution_very_high
  if 0 < very_high_count then
    (risk_score + very_high_count * very_high_risk_penalty,
     reasons ++ ["Very high-risk protocols: " ++ toString very_high_count])
  else (risk_score, reasons)

def calculate_risk (pa : ProtocolAnalysis) : ComponentResult :=
  match pa.protocols with
  | none =>
      { risk_score := 0
        reasons := ["No DeFi protocol interactions detected - Low Risk"]
        metrics := some [] }
  | some protocols =>
      if protocols.isEmpty then
        { risk_score := 0
          reasons := ["No DeFi protocol interactions - Low Risk"]
          metrics := some [] }
      else
        let avg_risk := pa.raw_average_risk.getD 50
        let s1 := analyze_high_risk_protocols pa avg_risk []
        let s2 := analyze_diversification pa s1.1 s1.2
        let s3 := analyze_tvl_factor pa s2.1 s2.2
        let s4 := analyze_concentration pa s3.1 s3.2
        let s5 := analyze_risk_distribution pa s4.1 s4.2
        let high_risk_count := pa.high_risk_protocols
        let total_protocols := pa.total_protocols.getD 1
        let diversification := pa.diversification_score
        let total_tvl := pa.total_tvl_interacted
        { risk_score := clamp s5.1
          reasons := s5.2
          metrics := some
            [("average_protocol_risk", .num avg_risk),
             ("high_risk_protocol_ratio",
              .num (if 0 < total_protocols then high_risk_count / total_protocols else 0)),
             ("diversification_score", .num diversification),
             ("total_tvl", .num total_tvl),
             ("risk_distribution_very_high", .num pa.risk_distribution_very_high)] }

end ProtocolRiskAnalyzer

/-! ## AssetConcentrationAnalyzer (`components/asset_concentration.py`) -/

namespace AssetConcentrationAnalyzer

def single_token_penalty : ℚ := 20
def low_diversification_penalty : ℚ := 10
def good_diversification_bonus : ℚ := 5
def high_diversification_bonus : ℚ := 10
def low_diversification_count : ℕ := 3
def good_diversification_count : ℕ := 10
def very_large_eth_holdings : ℚ := 1000
def large_eth_holdings : ℚ := 100
def significant_eth_holdings : ℚ := 10
def very_low_eth_balance : ℚ := 1/100
def very_large_eth_penalty : ℚ := 25
def large_eth_penalty : ℚ := 15
def significant_eth_penalty : ℚ := 5
def very_low_eth_penalty : ℚ := 10
def stablecoin_bonus_max : ℚ := 15
def stablecoin_bonus_per_token : ℚ := 5

def analyze_diversification (eth_balance : ℚ) (token_count : ℕ)
    (risk_score : ℚ) (reasons : List String) : ℚ × List String :=
  if token_count = 0 then
    if 0 < eth_balance then
      (risk_score - 15, reasons ++ ["ETH-only portfolio (conservative)"])
    else
      (risk_score + 30, reasons ++ ["No significant assets detected"])
  else if token_count = 1 then
    (risk_score + single_token_penalty, reasons ++ ["Single token concentration"])
  else if token_count < low_diversification_count then
    (risk_score + low_diversification_penalty,
     reasons ++ ["Low diversification: " ++ toString token_count ++ " tokens"])
  else if token_count < good_diversification_count then
    (risk_score - good_diversification_bonus,
     reasons ++ ["Good diversification: " ++ toString token_count ++ " tokens"])
  else
    (risk_score - high_diversification_bonus,
     reasons ++ ["High diversification: " ++ toString token_count ++ " tokens"])

def analyze_eth_holdings (eth_balance : ℚ)
    (risk_score : ℚ) (reasons : List String) : ℚ × List String :=
  if very_large_eth_holdings < eth_balance then
    (risk_score + very_large_eth_penalty,
     reasons ++ ["Very large ETH holdings: " ++ toString eth_balance ++ " ETH"])
  else if large_eth_holdings < eth_balance then
    (risk_score + large_eth_penalty,
     reasons ++ ["Large ETH holdings: " ++ toString eth_balance ++ " ETH"])
  else if significant_eth_holdings < eth_balance then
    (risk_score + significant_eth_penalty,
     reasons ++ ["Significant ETH holdings: " ++ toString eth_balance ++ " ETH"])
  else if eth_balance < very_low_eth_balance then
    (risk_score + very_low_eth_penalty, reasons ++ ["Very low ETH balance"])
  else (risk_score, reasons)

/-- Python `stable in symbol.lower()` substring test. -/
def containsSub (s pat : String) : Bool := 2 ≤ (s.splitOn pat).length

def isStable (t : Token) : Bool :=
  STABLECOIN_SYMBOLS.any (fun stable => containsSub t.token_symbol.toLower stable)

def analyze_token_composition (tokens : List Token)
    (risk_score : ℚ) (reasons : List String) : ℚ × List String :=
  if tokens.isEmpty then (risk_score, reasons)
  else
    let stablecoin_count : ℕ := tokens.countP isStable
    if 0 < stablecoin_count then
      let bonus := min ((stablecoin_count : ℚ) * stablecoin_bonus_per_token) stablecoin_bonus_max
      (risk_score - bonus,
       reasons ++ ["Stablecoin exposure: " ++ toString stablecoin_count ++ " tokens"])
    else (risk_score, reasons)

def get_diversification_level (token_count : ℕ) : String :=
  if good_diversification_count < token_count then "high"
  else if low_diversification_count < token_count then "medium"
  else if 0 < token_count then "low"
  else "none"

def calculate_risk (balances : Balances) : ComponentResult :=
  let eth_balance := balances.eth_balance
  let tokens := balances.tokens
  let token_count := tokens.length
  let s1 := analyze_diversification eth_balance token_count 50 []
  let s2 := analyze_eth_holdings eth_balance s1.1 s1.2
  let s3 := analyze_token_composition tokens s2.1 s2.2
  { risk_score := clamp s3.1
    reasons := s3.2
    metrics := some
      [("eth_balance", .num eth_balance),
       ("token_count", .num (token_count : ℚ)),
       ("asset_diversification", .str (get_diversification_level token_count))] }

end AssetConcentrationAnalyzer

/-! ## BehavioralPatternAnalyzer (`components/behavioral_patterns.py`) -/

namespace BehavioralPatternAnalyzer

def very_high_gas_price : ℚ := 200
def high_gas_price : ℚ := 100
def low_gas_price : ℚ := 20
def very_high_gas_penalty : ℚ := 20
def high_gas_penalty : ℚ := 10
def low_gas_bonus : ℚ := 5
def heavy_outflow_ratio : ℚ := 3
def moderate_outflow_ratio : ℚ := 3/2
def accumulation_ratio : ℚ := 2
def heavy_outflow_penalty : ℚ := 20
def moderate_outflow_penalty : ℚ := 5
def accumulation_bonus : ℚ := 5
def very_large_transaction : ℚ := 100
def large_transaction : ℚ := 10
def very_large_tx_penalty : ℚ := 15
def large_tx_penalty : ℚ := 5
def very_concentrated_interactions : ℚ := 1/10
def concentrated_interactions : ℚ := 3/10
def diverse_interactions : ℚ := 7/10
def very_concentrated_penalty : ℚ := 15
def concentrated_penalty : ℚ := 5
def diverse_bonus : ℚ := 5
def very_new_wallet_days : ℚ := 30
def new_wallet_days : ℚ := 90
def old_wallet_days : ℚ := 730
def very_new_wallet_penalty : ℚ := 15
def new_wallet_penalty : ℚ := 5
def old_wallet_bonus : ℚ := 10

def analyze_gas_patterns (patterns : Patterns)
    (risk_score : ℚ) (reasons : List String) : ℚ × List String :=
  let avg_gas_price := patterns.gas_analysis.avg_gas_price
  if very_high_gas_price < avg_gas_price then
    (risk_score + very_high_gas_penalty,
     reasons ++ ["Very high gas usage: " ++ toString avg_gas_price ++ " Gwei"])
  else if high_gas_price < avg_gas_price then
    (risk_score + high_gas_penalty,
     reasons ++ ["High gas usage: " ++ toString avg_gas_price ++ " Gwei"])
  else if avg_gas_price < low_gas_price then
    (risk_score - low_gas_bonus,
     reasons ++ ["Efficient gas usage: " ++ toString avg_gas_price ++ " Gwei"])
  else (risk_score, reasons)

def analyze_value_flow (patterns : Patterns)
    (risk_score : ℚ) (reasons : List String) : ℚ × List String :=
  let value_in := patterns.value_analysis.total_value_in
  let value_out := patterns.value_analysis.total_value_out
  if value_in * heavy_outflow_ratio < value_out then
    (risk_score + heavy_outflow_penalty, reasons ++ ["Heavy fund outflow pattern"])
  else if value_in * moderate_outflow_ratio < value_out then
    (risk_score + moderate_outflow_penalty, reasons ++ ["Moderate outflow pattern"])
  else if value_out * accumulation_ratio < value_in then
    (risk_score - accumulation_bonus, reasons ++ ["Accumulation pattern"])
  else (risk_score, reasons)

def analyze_transaction_sizes (patterns : Patterns)
    (risk_score : ℚ) (reasons : List String) : ℚ × List String :=
  let largest_tx := patterns.value_analysis.largest_transaction
  if very_large_transaction < largest_tx then
    (risk_score + very_large_tx_penalty,
     reasons ++ ["Very large transaction: " ++ toString largest_tx ++ " ETH"])
  else if large_transaction < largest_tx then
    (risk_score + large_tx_penalty,
     reasons ++ ["Large transaction: " ++ toString largest_tx ++ " ETH"])
  else (risk_score, reasons)

def analyze_interaction_diversity (patterns : Patterns)
    (risk_score : ℚ) (reasons : List String) : ℚ × List String :=
  let interaction_diversity := patterns.address_interactions.interaction_diversity
  let total_txs := patterns.total_transactions.getD 1
  if 0 < total_txs then
    let diversity_ratio := interaction_diversity / total_txs
    if diversity_ratio < very_concentrated_interactions then
      (risk_score + very_concentrated_penalty, reasons ++ ["Very concentrated interactions"])
    else if diversity_ratio < concentrated_interactions then
      (risk_score + concentrated_penalty, reasons ++ ["Somewhat concentrated interactions"])
    else if diverse_interactions < diversity_ratio then
      (risk_score - diverse_bonus, reasons ++ ["Diverse interaction pattern"])
    else (risk_score, reasons)
  else (risk_score, reasons)

def analyze_wallet_lifecycle (patterns : Patterns)
    (risk_score : ℚ) (reasons : List String) : ℚ × List String :=
  let first_tx := patterns.time_analysis.first_transaction
  let last_tx := patterns.time_analysis.last_transaction
  if qtruthy first_tx ∧ qtruthy last_tx then
    let wallet_age_days := (last_tx.getD 0 - first_tx.getD 0) / (24 * 60 * 60)
    if wallet_age_days < very_new_wallet_days then
      (risk_score + very_new_wallet_penalty, reasons ++ ["Very new wallet (<30 days)"])
    else if wallet_age_days < new_wallet_days then
      (risk_score + new_wallet_penalty, reasons ++ ["New wallet (<90 days)"])
    else if old_wallet_days < wallet_age_days then
      (risk_score - old_wallet_bonus, reasons ++ ["Established wallet (>2 years)"])
    else (risk_score, reasons)
  else (risk_score, reasons)

def calculate_risk (patterns : Patterns) : ComponentResult :=
  if patterns.hasError then
    { risk_score := 60, reasons := ["Unable to analyze behavior"], metrics := some [] }
  else
    let s1 := analyze_gas_patterns patterns 50 []
    let s2 := analyze_value_flow patterns s1.1 s1.2
    let s3 := analyze_transaction_sizes patterns s2.1 s2.2
    let s4 := analyze_interaction_diversity patterns s3.1 s3.2
    let s5 := analyze_wallet_lifecycle patterns s4.1 s4.2
    let avg_gas_price := patterns.gas_analysis.avg_gas_price
    let value_in := patterns.value_analysis.total_value_in
    let value_out := patterns.value_analysis.total_value_out
    let largest_tx := patterns.value_analysis.largest_transaction
    let interaction_diversity := patterns.address_interactions.interaction_diversity
    let total_txs := patterns.total_transactions.getD 1
    let diversity_ratio := if 0 < total_txs then interaction_diversity / total_txs else 0
    let value_flow_ratio := value_out / max value_in 1
    let first_tx := patterns.time_analysis.first_transaction
    let last_tx := patterns.time_analysis.last_transaction
    let wallet_age_days :=
      if qtruthy first_tx ∧ qtruthy last_tx then
        (last_tx.getD 0 - first_tx.getD 0) / (24 * 60 * 60)
      else 0
    { risk_score := clamp s5.1
      reasons := s5.2
      metrics := some
        [("avg_gas_price", .num avg_gas_price),
         ("value_flow_ratio", .num value_flow_ratio),
         ("largest_transaction", .num largest_tx),
         ("interaction_diversity", .num diversity_ratio),
         ("wallet_age_days", .num wallet_age_days)] }

end BehavioralPatternAnalyzer

/-! ## Gemini LLM collaborator (`llm/gemini_client.py`) -/

/-- The per-component scores of the LLM's `component_scores` dict; each key
may be absent. -/
structure LlmComponents where
  transaction_patterns : Option ℚ := none
  protocol_interactions : Option ℚ := none
  asset_concentration : Option ℚ := none
  behavioral_patterns : Option ℚ := none
deriving Repr, DecidableEq

def LlmComponents.empty : LlmComponents := {}

/-- A successfully JSON-decoded Gemini response body. -/
structure GeminiJson where
  overall_risk_score : Option ℚ := none
  component_scores : LlmComponents := {}
  risk_reasoning : Option String := none
  key_insights : List String := []
deriving Repr, DecidableEq

/-- The dict returned by `GeminiRiskAnalyzer.analyze_wallet_risk`. -/
structure LlmResult where
  llm_risk_score : Option ℚ
  component_scores : LlmComponents
  reasoning : String
  key_insights : List String
deriving Repr, DecidableEq

/-- Outcome of the Gemini I/O: no `GEMINI_API_KEY`, a failed API call
(`_call_gemini_api` returned `None`), or a raw response that either
JSON-decodes (`some j`) or raises `JSONDecodeError` (`none`). -/
inductive LlmOutcome where
  | unavailable
  | callFailed
  | response : Option GeminiJson → LlmOutcome
deriving Repr, DecidableEq

namespace GeminiRiskAnalyzer

/-- `_parse_gemini_response`: `none` is the `JSONDecodeError` branch. -/
def parse_gemini_response : Option GeminiJson → LlmResult
  | some parsed =>
      { llm_risk_score := some (parsed.overall_risk_score.getD 50)
        component_scores := parsed.component_scores
        reasoning := parsed.risk_reasoning.getD "Gemini analysis completed"
        key_insights := parsed.key_insights }
  | none =>
      { llm_risk_score := some 50
        component_scores := LlmComponents.empty
        reasoning := "Gemini response could not be parsed"
        key_insights := [] }

def analyze_wallet_risk : LlmOutcome → LlmResult
  | .unavailable =>
      { llm_risk_score := none
        component_scores := LlmComponents.empty
        reasoning := "Gemini analysis not available (no API key)"
        key_insights := [] }
  | .callFailed =>
      { llm_risk_score := none
        component_scores := LlmComponents.empty
        reasoning := "Gemini API call failed"
        key_insights := [] }
  | .response r => parse_gemini_response r

end GeminiRiskAnalyzer

/-! ## Risk level utilities (`utils/risk_levels.py`) -/

def RISK_LEVEL_DESCRIPTIONS (level : String) : String :=
  if level = "VERY_HIGH" then "Extremely risky wallet with multiple severe red flags"
  else if level = "HIGH" then "High-risk wallet requiring significant caution"
  else if level = "MEDIUM" then "Medium risk with some concerning factors"
  else if level = "LOW" then "Low risk with generally safe behavior patterns"
  else "Very low risk, highly conservative wallet behavior"

def get_risk_level_description (risk_score : ℚ) : String × String :=
  if 80 ≤ risk_score then ("VERY_HIGH", RISK_LEVEL_DESCRIPTIONS "VERY_HIGH")
  else if 60 ≤ risk_score then ("HIGH", RISK_LEVEL_DESCRIPTIONS "HIGH")
  else if 40 ≤ risk_score then ("MEDIUM", RISK_LEVEL_DESCRIPTIONS "MEDIUM")
  else if 20 ≤ risk_score then ("LOW", RISK_LEVEL_DESCRIPTIONS "LOW")
  else ("VERY_LOW", RISK_LEVEL_DESCRIPTIONS "VERY_LOW")

/-! ## Scoring orchestrator (`core.py`) -/

/-- The four named component scores of one scoring method. -/
structure Components4 where
  transaction_patterns : ℚ
  protocol_interactions : ℚ
  asset_concentration : ℚ
  behavioral_patterns : ℚ
deriving Repr, DecidableEq

/-- The fields of the dict returned by `calculate_overall_risk_score` that
the claims inspect.  `scoring_methods.*` fields are flattened with a
method name as a name segment. -/
structure Assessment where
  overall_risk_score : ℚ
  risk_level : String
  risk_description : String
  component_scores : Components4
  rule_based_overall_score : ℚ
  rule_based_risk_level : String
  rule_based_components : Components4
  llm_based_overall_score : Option ℚ
  llm_based_risk_level : String
  llm_based_components : LlmComponents
  llm_based_reasoning : String
  hybrid_overall_score : ℚ
  hybrid_risk_level : String
  hybrid_components : Components4
  hybrid_methodology : String
  risk_factors : List String
deriving Repr, DecidableEq

namespace RiskScoringEngine

/-- The rule-based weighted overall score computed in STEP 1 of
`calculate_overall_risk_score` (before the 2-decimal display rounding). -/
def rule_based_risk (patterns : Patterns) (protocol_analysis : ProtocolAnalysis)
    (balances : Balances) : ℚ :=
  let transaction_risk := (TransactionPatternAnalyzer.calculate_risk patterns).risk_score
  let protocol_risk := (ProtocolRiskAnalyzer.calculate_risk protocol_analysis).risk_score
  let concentration_risk := (AssetConcentrationAnalyzer.calculate_risk balances).risk_score
  let behavioral_risk := (BehavioralPatternAnalyzer.calculate_risk patterns).risk_score
  transaction_risk * RISK_WEIGHTS.transaction_patterns
    + protocol_risk * RISK_WEIGHTS.protocol_interactions
    + concentration_risk * RISK_WEIGHTS.asset_concentration
    + behavioral_risk * (RISK_WEIGHTS.activity_frequency + RISK_WEIGHTS.failure_rate)

def calculate_overall_risk_score (patterns : Patterns)
    (protocol_analysis : ProtocolAnalysis) (balances : Balances)
    (llm : LlmOutcome) : Assessment :=
  let transaction_result := TransactionPatternAnalyzer.calculate_risk patterns
  let protocol_result := ProtocolRiskAnalyzer.calculate_risk protocol_analysis
  let concentration_result := AssetConcentrationAnalyzer.calculate_risk balances
  let behavioral_result := BehavioralPatternAnalyzer.calculate_risk patterns
  let transaction_risk := transaction_result.risk_score
  let protocol_risk := protocol_result.risk_score
  let concentration_risk := concentration_result.risk_score
  let behavioral_risk := behavioral_result.risk_score
  let rb := rule_based_risk patterns protocol_analysis balances
  let llm_result := GeminiRiskAnalyzer.analyze_wallet_risk llm
  let llm_risk_score := llm_result.llm_risk_score
  let llm_component_scores := llm_result.component_scores
  -- STEP 3: hybrid if `llm_risk_score is not None`, else pure rule-based
  let overall_and_components : ℚ × Components4 :=
    match llm_risk_score with
    | some s =>
        let hybrid_risk := LLM_CONFIG_rule_based_weight * rb + LLM_CONFIG_llm_weight * s
        (hybrid_risk,
         { transaction_patterns :=
             7/10 * transaction_risk
               + 3/10 * (llm_component_scores.transaction_patterns.getD transaction_risk)
           protocol_interactions :=
             5/10 * protocol_risk
               + 5/10 * (llm_component_scores.protocol_interactions.getD protocol_risk)
           asset_concentration :=
             6/10 * concentration_risk
               + 4/10 * (llm_component_scores.asset_concentration.getD concentration_risk)
           behavioral_patterns :=
             7/10 * behavioral_risk
               + 3/10 * (llm_component_scores.behavioral_patterns.getD behavioral_risk) })
    | none =>
        (rb,
         { transaction_patterns := transaction_risk
           protocol_interactions := protocol_risk
           asset_concentration := concentration_risk
           behavioral_patterns := behavioral_risk })
  let overall_risk := overall_and_components.1
  let primary_components := overall_and_components.2
  let level_descr := get_risk_level_description overall_risk
  let all_reasons := transaction_result.reasons ++ protocol_result.reasons
    ++ concentration_result.reasons ++ behavioral_result.reasons
  { overall_risk_score := round2 overall_risk
    risk_level := level_descr.1
    risk_description := level_descr.2
    component_scores :=
      { transaction_patterns := round2 primary_components.transaction_patterns
        protocol_interactions := round2 primary_components.protocol_interactions
        asset_concentration := round2 primary_components.asset_concentration
        behavioral_patterns := round2 primary_components.behavioral_patterns }
    rule_based_overall_score := round2 rb
    rule_based_risk_level := (get_risk_level_description rb).1
    rule_based_components :=
      { transaction_patterns := round2 transaction_risk
        protocol_interactions := round2 protocol_risk
        asset_concentration := round2 concentration_risk
        behavioral_patterns := round2 behavioral_risk }
    -- the reporting fields test Python truthiness of `llm_risk_score`
    llm_based_overall_score :=
      if qtruthy llm_risk_score then some (round2 (llm_risk_score.getD 0)) else none
    llm_based_risk_level :=
      if qtruthy llm_risk_score then (get_risk_level_description (llm_risk_score.getD 0)).1
      else "N/A"
    llm_based_components := llm_component_scores
    llm_based_reasoning := llm_result.reasoning
    hybrid_overall_score := round2 overall_risk
    hybrid_risk_level := level_descr.1
    hybrid_components :=
      { transaction_patterns := round2 primary_components.transaction_patterns
        protocol_interactions := round2 primary_components.protocol_interactions
        asset_concentration := round2 primary_components.asset_concentration
        behavioral_patterns := round2 primary_components.behavioral_patterns }
    hybrid_methodology :=
      if qtruthy llm_risk_score then "60% rule-based + 40% Gemini"
      else "100% rule-based (Gemini unavailable)"
    risk_factors := all_reasons }

end RiskScoringEngine

/-! ## Shared concrete inputs used by witnesses and counterexamples -/

/-- Patterns dict with `total_transactions = 0` and every other key at its
`.get` default (empty sub-dicts, no error marker). -/
def pInactive : Patterns := { total_transactions := some 0 }

/-- Patterns dict carrying the `error` marker. -/
def pErr : Patterns := { hasError := true }

/-- `protocol_analysis` with the `protocols` key present and empty. -/
def paEmptyList : ProtocolAnalysis := { protocols := some [] }

/-- `protocol_analysis` without a `protocols` key. -/
def paNone : ProtocolAnalysis := {}

/-- One maximally risky protocol: raw average risk 100, a single protocol,
single category, negligible TVL. -/
def paHigh : ProtocolAnalysis :=
  { protocols := some [{}], raw_average_risk := some 100, total_protocols := some 1 }

/-- Balances with no ETH and no tokens. -/
def bEmpty : Balances := {}

/-- A decoded Gemini response scoring everything 100. -/
def jAll100 : GeminiJson :=
  { overall_risk_score := some 100
    component_scores :=
      { transaction_patterns := some 100
        protocol_interactions := some 100
        asset_concentration := some 100
        behavioral_patterns := some 100 } }

/-- A decoded Gemini response whose overall score is 150 (out of range);
the code never validates or clamps it. -/
def j150 : GeminiJson := { overall_risk_score := some 150 }

/-- A decoded Gemini response whose overall score is exactly 0. -/
def jZero : GeminiJson := { overall_risk_score := some 0 }

/-- A decoded Gemini response with an in-range overall score 50. -/
def j50 : GeminiJson := { overall_risk_score := some 50 }

/-! ## Helper lemmas -/

lemma clamp_nonneg (x : ℚ) : 0 ≤ clamp x := le_max_left 0 _

lemma clamp_le_100 (x : ℚ) : clamp x ≤ 100 :=
  max_le (by norm_num) (min_le_left _ _)

lemma transaction_score_bounds (p : Patterns) :
    0 ≤ (TransactionPatternAnalyzer.calculate_risk p).risk_score ∧
      (TransactionPatternAnalyzer.calculate_risk p).risk_score ≤ 100 := by
  simp only [TransactionPatternAnalyzer.calculate_risk]
  split_ifs <;> constructor <;>
    first
      | exact clamp_nonneg _
      | exact clamp_le_100 _
      | norm_num

lemma protocol_score_bounds (pa : ProtocolAnalysis) :
    0 ≤ (ProtocolRiskAnalyzer.calculate_risk pa).risk_score ∧
      (ProtocolRiskAnalyzer.calculate_risk pa).risk_score ≤ 100 := by
  unfold ProtocolRiskAnalyzer.calculate_risk
  rcases pa.protocols with _ | ps
  · constructor <;> norm_num
  · by_cases he : ps.isEmpty <;>
      simp only [he, if_true, if_false, Bool.false_eq_true] <;>
      constructor <;>
      first
        | exact clamp_nonneg _
        | exact clamp_le_100 _
        | norm_num

lemma concentration_score_bounds (b : Balances) :
    0 ≤ (AssetConcentrationAnalyzer.calculate_risk b).risk_score ∧
      (AssetConcentrationAnalyzer.calculate_risk b).risk_score ≤ 100 :=
  ⟨clamp_nonneg _, clamp_le_100 _⟩

lemma behavioral_score_bounds (p : Patterns) :
    0 ≤ (BehavioralPatternAnalyzer.calculate_risk p).risk_score ∧
      (BehavioralPatternAnalyzer.calculate_risk p).risk_score ≤ 100 := by
  simp only [BehavioralPatternAnalyzer.calculate_risk]
  split_ifs <;> constructor <;>
    first
      | exact clamp_nonneg _
      | exact clamp_le_100 _
      | norm_num

lemma rule_based_risk_bounds (p : Patterns) (pa : ProtocolAnalysis) (b : Balances) :
    0 ≤ RiskScoringEngine.rule_based_risk p pa b ∧
      RiskScoringEngine.rule_based_risk p pa b ≤ 100 := by
  obtain ⟨ht0, ht1⟩ := transaction_score_bounds p
  obtain ⟨hp0, hp1⟩ := protocol_score_bounds pa
  obtain ⟨hc0, hc1⟩ := concentration_score_bounds b
  obtain ⟨hb0, hb1⟩ := behavioral_score_bounds p
  unfold RiskScoringEngine.rule_based_risk RISK_WEIGHTS
  constructor <;> linarith

lemma round_half_even_nonneg (x : ℚ) (hx : 0 ≤ x) : 0 ≤ round_half_even x := by
  have h0 : (0 : ℤ) ≤ ⌊x⌋ := Int.floor_nonneg.mpr hx
  simp only [round_half_even]
  split_ifs <;> omega

lemma round_half_even_le (x : ℚ) (n : ℤ) (hx : x ≤ n) : round_half_even x ≤ n := by
  have hf : ⌊x⌋ ≤ n := by
    have := Int.floor_le_floor hx
    simpa using this
  have hfx : (⌊x⌋ : ℚ) ≤ x := Int.floor_le x
  simp only [round_half_even]
  split_ifs with h1 h2 h3
  · exact hf
  all_goals
    -- the fractional part is at least 1/2, so the floor is strictly below n
    have hlt : (⌊x⌋ : ℚ) < n := by linarith
    have : ⌊x⌋ < n := by exact_mod_cast hlt
    omega

lemma round2_nonneg (x : ℚ) (hx : 0 ≤ x) : 0 ≤ round2 x := by
  unfold round2
  have h := round_half_even_nonneg (x * 100) (by linarith)
  have : (0 : ℚ) ≤ (round_half_even (x * 100) : ℚ) := by exact_mod_cast h
  linarith

lemma round2_le_100 (x : ℚ) (hx : x ≤ 100) : round2 x ≤ 100 := by
  unfold round2
  have h := round_half_even_le (x * 100) 10000 (by norm_num; linarith)
  have : ((round_half_even (x * 100) : ℤ) : ℚ) ≤ 10000 := by exact_mod_cast h
  linarith

/-! ## Claims -/

/-- **C3.** For every input (and any LLM outcome), the rule-based overall
score equals `transaction*0.25 + protocol*0.30 + concentration*0.20 +
behavioral*0.25`, where the behavioral weight 0.25 is the sum of the
`activity_frequency` weight 0.15 and the `failure_rate` weight 0.10, both
multiplying the same behavioral score; the assessment reports this value
rounded to two decimals. -/
theorem C3_rule_based_weighted_sum (p : Patterns) (pa : ProtocolAnalysis)
    (b : Balances) (o : LlmOutcome) :
    RiskScoringEngine.rule_based_risk p pa b =
        (TransactionPatternAnalyzer.calculate_risk p).risk_score * (25/100)
          + (ProtocolRiskAnalyzer.calculate_risk pa).risk_score * (30/100)
          + (AssetConcentrationAnalyzer.calculate_risk b).risk_score * (20/100)
          + (BehavioralPatternAnalyzer.calculate_risk p).risk_score * (25/100)
      ∧ RISK_WEIGHTS.activity_frequency + RISK_WEIGHTS.failure_rate = 25/100
      ∧ RiskScoringEngine.rule_based_risk p pa b =
          (TransactionPatternAnalyzer.calculate_risk p).risk_score
              * RISK_WEIGHTS.transaction_patterns
            + (ProtocolRiskAnalyzer.calculate_risk pa).risk_score
              * RISK_WEIGHTS.protocol_interactions
            + (AssetConcentrationAnalyzer.calculate_risk b).risk_score
              * RISK_WEIGHTS.asset_concentration
            + (BehavioralPatternAnalyzer.calculate_risk p).risk_score
              * (RISK_WEIGHTS.activity_frequency + RISK_WEIGHTS.failure_rate)
      ∧ (RiskScoringEngine.calculate_overall_risk_score p pa b o).rule_based_overall_score
          = round2 (RiskScoringEngine.rule_based_risk p pa b) := by
  refine ⟨?_, by norm_num [RISK_WEIGHTS], rfl, ?_⟩
  · unfold RiskScoringEngine.rule_based_risk RISK_WEIGHTS
    ring
  · simp only [RiskScoringEngine.calculate_overall_risk_score]

/-- **C7.** For every `protocol_analysis` input whose protocol list is
empty or absent, `ProtocolRiskAnalyzer.calculate_risk` returns a
`risk_score` of exactly 0.0, regardless of all other fields of the
input. -/
theorem C7_empty_protocols_zero (pa : ProtocolAnalysis) :
    (ProtocolRiskAnalyzer.calculate_risk { pa with protocols := none }).risk_score = 0
      ∧ (ProtocolRiskAnalyzer.calculate_risk { pa with protocols := some [] }).risk_score
          = 0 := by
  constructor <;> simp [ProtocolRiskAnalyzer.calculate_risk]

/-- **C8.** Every `patterns` input without an error marker and with
`total_transactions` equal to 0 yields exactly the fixed result score 90
with the inactive-wallet reason text; every input carrying an error marker
yields exactly score 90 with a different reason text. -/
theorem C8_zero_transactions_90 (p : Patterns) :
    TransactionPatternAnalyzer.calculate_risk
        { p with hasError := false, total_transactions := some 0 }
      = { risk_score := 90, reasons := ["Inactive wallet - no transactions"],
          metrics := none }
      ∧ TransactionPatternAnalyzer.calculate_risk { p with hasError := true }
          = { risk_score := 90, reasons := ["No transaction data available"],
              metrics := none }
      ∧ ("Inactive wallet - no transactions" : String)
          ≠ "No transaction data available" := by
  refine ⟨?_, ?_, by simp⟩ <;> simp [TransactionPatternAnalyzer.calculate_risk]

/-- **C4.** When the LLM collaborator reports unavailable
(`llm_risk_score is None`: no API key or a failed call), the hybrid
overall score and all four hybrid component scores equal the corresponding
rule-based fields, the primary component scores are the rule-based ones,
and `scoring_methods.llm_based.overall_score` is null. -/
theorem C4_llm_unavailable_pure_rule_based (p : Patterns)
    (pa : ProtocolAnalysis) (b : Balances) (o : LlmOutcome)
    (h : (GeminiRiskAnalyzer.analyze_wallet_risk o).llm_risk_score = none) :
    (RiskScoringEngine.calculate_overall_risk_score p pa b o).hybrid_overall_score
        = (RiskScoringEngine.calculate_overall_risk_score p pa b o).rule_based_overall_score
      ∧ (RiskScoringEngine.calculate_overall_risk_score p pa b o).hybrid_components
          = (RiskScoringEngine.calculate_overall_risk_score p pa b o).rule_based_components
      ∧ (RiskScoringEngine.calculate_overall_risk_score p pa b o).component_scores
          = (RiskScoringEngine.calculate_overall_risk_score p pa b o).rule_based_components
      ∧ (RiskScoringEngine.calculate_overall_risk_score p pa b o).overall_risk_score
          = (RiskScoringEngine.calculate_overall_risk_score p pa b o).rule_based_overall_score
      ∧ (RiskScoringEngine.calculate_overall_risk_score p pa b o).llm_based_overall_score
          = none := by
  simp [RiskScoringEngine.calculate_overall_risk_score, h, qtruthy]

/-- Witness for C4: the no-API-key outcome at the inactive-wallet input. -/
theorem C4_llm_unavailable_pure_rule_based_witness :
    (RiskScoringEngine.calculate_overall_risk_score pInactive paEmptyList bEmpty
          .unavailable).hybrid_overall_score
        = (RiskScoringEngine.calculate_overall_risk_score pInactive paEmptyList bEmpty
            .unavailable).rule_based_overall_score
      ∧ (RiskScoringEngine.calculate_overall_risk_score pInactive paEmptyList bEmpty
            .unavailable).hybrid_components
          = (RiskScoringEngine.calculate_overall_risk_score pInactive paEmptyList bEmpty
              .unavailable).rule_based_components
      ∧ (RiskScoringEngine.calculate_overall_risk_score pInactive paEmptyList bEmpty
            .unavailable).component_scores
          = (RiskScoringEngine.calculate_overall_risk_score pInactive paEmptyList bEmpty
              .unavailable).rule_based_components
      ∧ (RiskScoringEngine.calculate_overall_risk_score pInactive paEmptyList bEmpty
            .unavailable).overall_risk_score
          = (RiskScoringEngine.calculate_overall_risk_score pInactive paEmptyList bEmpty
              .unavailable).rule_based_overall_score
      ∧ (RiskScoringEngine.calculate_overall_risk_score pInactive paEmptyList bEmpty
            .unavailable).llm_based_overall_score
          = none :=
  C4_llm_unavailable_pure_rule_based pInactive paEmptyList bEmpty .unavailable rfl

/-- `round(x, 2)` is the identity on values that are exact hundredths. -/
lemma round2_fixed (x : ℚ) (n : ℤ) (hx : x * 100 = (n : ℚ)) : round2 x = x := by
  unfold round2
  simp only [round_half_even, hx, Int.floor_intCast, sub_self]
  norm_num
  linarith

lemma tx_pErr_score :
    (TransactionPatternAnalyzer.calculate_risk pErr).risk_score = 90 := by
  simp [TransactionPatternAnalyzer.calculate_risk, pErr]

lemma tx_pInactive_score :
    (TransactionPatternAnalyzer.calculate_risk pInactive).risk_score = 90 := by
  simp [TransactionPatternAnalyzer.calculate_risk, pInactive]

lemma behav_pErr_score :
    (BehavioralPatternAnalyzer.calculate_risk pErr).risk_score = 60 := by
  simp [BehavioralPatternAnalyzer.calculate_risk, pErr]

lemma behav_pInactive_score :
    (BehavioralPatternAnalyzer.calculate_risk pInactive).risk_score = 45 := by
  simp only [BehavioralPatternAnalyzer.calculate_risk,
    BehavioralPatternAnalyzer.analyze_gas_patterns,
    BehavioralPatternAnalyzer.analyze_value_flow,
    BehavioralPatternAnalyzer.analyze_transaction_sizes,
    BehavioralPatternAnalyzer.analyze_interaction_diversity,
    BehavioralPatternAnalyzer.analyze_wallet_lifecycle,
    BehavioralPatternAnalyzer.low_gas_price,
    BehavioralPatternAnalyzer.very_high_gas_price,
    BehavioralPatternAnalyzer.high_gas_price,
    BehavioralPatternAnalyzer.low_gas_bonus,
    BehavioralPatternAnalyzer.heavy_outflow_ratio,
    BehavioralPatternAnalyzer.moderate_outflow_ratio,
    BehavioralPatternAnalyzer.accumulation_ratio,
    BehavioralPatternAnalyzer.very_large_transaction,
    BehavioralPatternAnalyzer.large_transaction,
    qtruthy, clamp, min_def, max_def, pInactive]
  norm_num

lemma proto_paNone_score :
    (ProtocolRiskAnalyzer.calculate_risk paNone).risk_score = 0 := by
  simp [ProtocolRiskAnalyzer.calculate_risk, paNone]

lemma proto_paEmptyList_score :
    (ProtocolRiskAnalyzer.calculate_risk paEmptyList).risk_score = 0 := by
  simp [ProtocolRiskAnalyzer.calculate_risk, paEmptyList]

lemma proto_paHigh_score :
    (ProtocolRiskAnalyzer.calculate_risk paHigh).risk_score = 100 := by
  norm_num [ProtocolRiskAnalyzer.calculate_risk,
    ProtocolRiskAnalyzer.analyze_high_risk_protocols,
    ProtocolRiskAnalyzer.analyze_diversification,
    ProtocolRiskAnalyzer.analyze_tvl_factor,
    ProtocolRiskAnalyzer.analyze_concentration,
    ProtocolRiskAnalyzer.analyze_risk_distribution,
    ProtocolRiskAnalyzer.single_protocol_penalty,
    ProtocolRiskAnalyzer.very_high_tvl, ProtocolRiskAnalyzer.high_tvl,
    ProtocolRiskAnalyzer.medium_tvl, ProtocolRiskAnalyzer.low_tvl,
    ProtocolRiskAnalyzer.low_tvl_penalty,
    clamp, min_def, max_def, paHigh]

lemma conc_bEmpty_score :
    (AssetConcentrationAnalyzer.calculate_risk bEmpty).risk_score = 90 := by
  norm_num [AssetConcentrationAnalyzer.calculate_risk,
    AssetConcentrationAnalyzer.analyze_diversification,
    AssetConcentrationAnalyzer.analyze_eth_holdings,
    AssetConcentrationAnalyzer.analyze_token_composition,
    AssetConcentrationAnalyzer.very_low_eth_balance,
    AssetConcentrationAnalyzer.very_low_eth_penalty,
    AssetConcentrationAnalyzer.very_large_eth_holdings,
    AssetConcentrationAnalyzer.large_eth_holdings,
    AssetConcentrationAnalyzer.significant_eth_holdings,
    clamp, min_def, max_def, bEmpty]

lemma rule_pErr_paNone_bEmpty :
    RiskScoringEngine.rule_based_risk pErr paNone bEmpty = 111/2 := by
  unfold RiskScoringEngine.rule_based_risk
  rw [tx_pErr_score, behav_pErr_score, proto_paNone_score, conc_bEmpty_score]
  norm_num [RISK_WEIGHTS]

lemma rule_pErr_paHigh_bEmpty :
    RiskScoringEngine.rule_based_risk pErr paHigh bEmpty = 171/2 := by
  unfold RiskScoringEngine.rule_based_risk
  rw [tx_pErr_score, behav_pErr_score, proto_paHigh_score, conc_bEmpty_score]
  norm_num [RISK_WEIGHTS]

lemma rule_pInactive_paEmptyList_bEmpty :
    RiskScoringEngine.rule_based_risk pInactive paEmptyList bEmpty = 207/4 := by
  unfold RiskScoringEngine.rule_based_risk
  rw [tx_pInactive_score, behav_pInactive_score, proto_paEmptyList_score,
    conc_bEmpty_score]
  norm_num [RISK_WEIGHTS]

/-- Full hybrid evaluation at the error/no-protocol/empty-balance input with
a Gemini response scoring everything 100. -/
lemma hybrid_eval_pErr_paNone_bEmpty_jAll100 :
    (RiskScoringEngine.calculate_overall_risk_score pErr paNone bEmpty
          (.response (some jAll100))).hybrid_overall_score = 733/10
      ∧ (RiskScoringEngine.calculate_overall_risk_score pErr paNone bEmpty
            (.response (some jAll100))).hybrid_components
          = { transaction_patterns := 93, protocol_interactions := 50
              asset_concentration := 94, behavioral_patterns := 72 } := by
  constructor
  · simp only [RiskScoringEngine.calculate_overall_risk_score,
      GeminiRiskAnalyzer.analyze_wallet_risk,
      GeminiRiskAnalyzer.parse_gemini_response, jAll100, Option.getD_some]
    rw [rule_pErr_paNone_bEmpty]
    norm_num [LLM_CONFIG_rule_based_weight, LLM_CONFIG_llm_weight]
    exact round2_fixed _ 7330 (by norm_num)
  · simp only [RiskScoringEngine.calculate_overall_risk_score,
      GeminiRiskAnalyzer.analyze_wallet_risk,
      GeminiRiskAnalyzer.parse_gemini_response, jAll100, Option.getD_some,
      Components4.mk.injEq]
    rw [tx_pErr_score, proto_paNone_score, conc_bEmpty_score, behav_pErr_score]
    refine ⟨?_, ?_, ?_, ?_⟩
    · norm_num
      exact round2_fixed _ 9300 (by norm_num)
    · norm_num
      exact round2_fixed _ 5000 (by norm_num)
    · norm_num
      exact round2_fixed _ 9400 (by norm_num)
    · norm_num
      exact round2_fixed _ 7200 (by norm_num)

/-- **C2.** When the LLM collaborator returns a numeric score, the hybrid
overall score equals `0.6*rule_based + 0.4*llm_score`, the hybrid component
scores are per-component blends with fixed ratios (transaction 70/30,
protocol 50/50, concentration 60/40, behavioral 70/30), and the hybrid
overall is in general not the weighted sum of the hybrid component scores
(witnessed by a concrete input where the two differ). -/
theorem C2_hybrid_blend (p : Patterns) (pa : ProtocolAnalysis) (b : Balances)
    (j : GeminiJson) (s lt lp lc lb : ℚ)
    (hs : j.overall_risk_score = some s)
    (hc : j.component_scores =
      { transaction_patterns := some lt, protocol_interactions := some lp
        asset_concentration := some lc, behavioral_patterns := some lb }) :
    (RiskScoringEngine.calculate_overall_risk_score p pa b
          (.response (some j))).hybrid_overall_score
        = round2 (LLM_CONFIG_rule_based_weight
              * RiskScoringEngine.rule_based_risk p pa b
            + LLM_CONFIG_llm_weight * s)
      ∧ LLM_CONFIG_rule_based_weight = 6/10
      ∧ LLM_CONFIG_llm_weight = 4/10
      ∧ (RiskScoringEngine.calculate_overall_risk_score p pa b
            (.response (some j))).hybrid_components
          = { transaction_patterns :=
                round2 (7/10 * (TransactionPatternAnalyzer.calculate_risk p).risk_score
                  + 3/10 * lt)
              protocol_interactions :=
                round2 (5/10 * (ProtocolRiskAnalyzer.calculate_risk pa).risk_score
                  + 5/10 * lp)
              asset_concentration :=
                round2 (6/10 * (AssetConcentrationAnalyzer.calculate_risk b).risk_score
                  + 4/10 * lc)
              behavioral_patterns :=
                round2 (7/10 * (BehavioralPatternAnalyzer.calculate_risk p).risk_score
                  + 3/10 * lb) }
      ∧ (RiskScoringEngine.calculate_overall_risk_score pErr paNone bEmpty
            (.response (some jAll100))).hybrid_overall_score
          ≠ (RiskScoringEngine.calculate_overall_risk_score pErr paNone bEmpty
                (.response (some jAll100))).hybrid_components.transaction_patterns
                * RISK_WEIGHTS.transaction_patterns
              + (RiskScoringEngine.calculate_overall_risk_score pErr paNone bEmpty
                    (.response (some jAll100))).hybrid_components.protocol_interactions
                * RISK_WEIGHTS.protocol_interactions
              + (RiskScoringEngine.calculate_overall_risk_score pErr paNone bEmpty
                    (.response (some jAll100))).hybrid_components.asset_concentration
                * RISK_WEIGHTS.asset_concentration
              + (RiskScoringEngine.calculate_overall_risk_score pErr paNone bEmpty
                    (.response (some jAll100))).hybrid_components.behavioral_patterns
                * (RISK_WEIGHTS.activity_frequency + RISK_WEIGHTS.failure_rate) := by
  refine ⟨?_, rfl, rfl, ?_, ?_⟩
  · simp only [RiskScoringEngine.calculate_overall_risk_score,
      GeminiRiskAnalyzer.analyze_wallet_risk,
      GeminiRiskAnalyzer.parse_gemini_response, hs, Option.getD_some]
  · simp only [RiskScoringEngine.calculate_overall_risk_score,
      GeminiRiskAnalyzer.analyze_wallet_risk,
      GeminiRiskAnalyzer.parse_gemini_response, hs, hc, Option.getD_some]
  · obtain ⟨h1, h2⟩ := hybrid_eval_pErr_paNone_bEmpty_jAll100
    rw [h1, h2]
    norm_num [RISK_WEIGHTS]

/-- Witness for C2: a decoded response with overall 100 and all component
scores 100, at the error-marker/no-protocol/empty-balance input. -/
theorem C2_hybrid_blend_witness :
    jAll100.overall_risk_score = some 100
      ∧ jAll100.component_scores =
          { transaction_patterns := some 100, protocol_interactions := some 100
            asset_concentration := some 100, behavioral_patterns := some 100 }
      ∧ (RiskScoringEngine.calculate_overall_risk_score pErr paNone bEmpty
            (.response (some jAll100))).hybrid_overall_score
          = round2 (LLM_CONFIG_rule_based_weight
                * RiskScoringEngine.rule_based_risk pErr paNone bEmpty
              + LLM_CONFIG_llm_weight * 100) :=
  ⟨rfl, rfl,
    (C2_hybrid_blend pErr paNone bEmpty jAll100 100 100 100 100 100 rfl rfl).1⟩

/-- **C10.** When the LLM returns a numeric score of exactly 0, the
orchestrator still blends it (hybrid = 0.6*rule_based + 0.4*0, which
differs from the rule-based score whenever that is nonzero) because the
blend tests `is not None`, yet the reporting fields test truthiness: the
reported LLM overall score is null, its risk level is "N/A", and the
hybrid methodology string says "100% rule-based (Gemini unavailable)". -/
theorem C10_zero_llm_score_blend_vs_reporting (p : Patterns)
    (pa : ProtocolAnalysis) (b : Balances) (j : GeminiJson)
    (h : j.overall_risk_score = some 0) :
    (GeminiRiskAnalyzer.analyze_wallet_risk (.response (some j))).llm_risk_score
        = some 0
      ∧ (RiskScoringEngine.calculate_overall_risk_score p pa b
            (.response (some j))).hybrid_overall_score
          = round2 (LLM_CONFIG_rule_based_weight
                * RiskScoringEngine.rule_based_risk p pa b
              + LLM_CONFIG_llm_weight * 0)
      ∧ (RiskScoringEngine.rule_based_risk p pa b ≠ 0 →
          LLM_CONFIG_rule_based_weight * RiskScoringEngine.rule_based_risk p pa b
              + LLM_CONFIG_llm_weight * 0
            ≠ RiskScoringEngine.rule_based_risk p pa b)
      ∧ (RiskScoringEngine.calculate_overall_risk_score p pa b
            (.response (some j))).llm_based_overall_score = none
      ∧ (RiskScoringEngine.calculate_overall_risk_score p pa b
            (.response (some j))).llm_based_risk_level = "N/A"
      ∧ (RiskScoringEngine.calculate_overall_risk_score p pa b
            (.response (some j))).hybrid_methodology
          = "100% rule-based (Gemini unavailable)" := by
  refine ⟨?_, ?_, ?_, ?_, ?_, ?_⟩
  · simp [GeminiRiskAnalyzer.analyze_wallet_risk,
      GeminiRiskAnalyzer.parse_gemini_response, h]
  · simp only [RiskScoringEngine.calculate_overall_risk_score,
      GeminiRiskAnalyzer.analyze_wallet_risk,
      GeminiRiskAnalyzer.parse_gemini_response, h, Option.getD_some]
  · intro hne heq
    apply hne
    rw [LLM_CONFIG_rule_based_weight, LLM_CONFIG_llm_weight] at heq
    linarith
  all_goals
    simp [RiskScoringEngine.calculate_overall_risk_score,
      GeminiRiskAnalyzer.analyze_wallet_risk,
      GeminiRiskAnalyzer.parse_gemini_response, h, qtruthy]

/-- Witness for C10: a decoded response with overall score exactly 0 at the
inactive-wallet input (whose rule-based score 207/4 is nonzero). -/
theorem C10_zero_llm_score_blend_vs_reporting_witness :
    jZero.overall_risk_score = some 0
      ∧ ((GeminiRiskAnalyzer.analyze_wallet_risk
              (.response (some jZero))).llm_risk_score = some 0
          ∧ (RiskScoringEngine.calculate_overall_risk_score pInactive paEmptyList
                bEmpty (.response (some jZero))).hybrid_overall_score
              = round2 (LLM_CONFIG_rule_based_weight
                    * RiskScoringEngine.rule_based_risk pInactive paEmptyList bEmpty
                  + LLM_CONFIG_llm_weight * 0)
          ∧ (RiskScoringEngine.rule_based_risk pInactive paEmptyList bEmpty ≠ 0 →
              LLM_CONFIG_rule_based_weight
                    * RiskScoringEngine.rule_based_risk pInactive paEmptyList bEmpty
                  + LLM_CONFIG_llm_weight * 0
                ≠ RiskScoringEngine.rule_based_risk pInactive paEmptyList bEmpty)
          ∧ (RiskScoringEngine.calculate_overall_risk_score pInactive paEmptyList
                bEmpty (.response (some jZero))).llm_based_overall_score = none
          ∧ (RiskScoringEngine.calculate_overall_risk_score pInactive paEmptyList
                bEmpty (.response (some jZero))).llm_based_risk_level = "N/A"
          ∧ (RiskScoringEngine.calculate_overall_risk_score pInactive paEmptyList
                bEmpty (.response (some jZero))).hybrid_methodology
              = "100% rule-based (Gemini unavailable)")
      ∧ RiskScoringEngine.rule_based_risk pInactive paEmptyList bEmpty ≠ 0 :=
  ⟨rfl,
    C10_zero_llm_score_blend_vs_reporting pInactive paEmptyList bEmpty jZero rfl,
    by rw [rule_pInactive_paEmptyList_bEmpty]; norm_num⟩

/-- **C5 counterexample.** An unparsable LLM response is NOT treated as
"no LLM data": the parse-failure branch returns the default numeric score
50, and at the inactive-wallet input the orchestrator blends it, so the
hybrid overall score (51.05) differs from the rule-based one (51.75) and
the methodology string records a blend. -/
theorem C5_unparsable_counterexample :
    (GeminiRiskAnalyzer.analyze_wallet_risk (.response none)).llm_risk_score
        = some 50
      ∧ some (50 : ℚ) ≠ none
      ∧ (RiskScoringEngine.calculate_overall_risk_score pInactive paEmptyList
            bEmpty (.response none)).hybrid_overall_score = 1021/20
      ∧ (RiskScoringEngine.calculate_overall_risk_score pInactive paEmptyList
            bEmpty (.response none)).rule_based_overall_score = 207/4
      ∧ (1021/20 : ℚ) ≠ 207/4
      ∧ (RiskScoringEngine.calculate_overall_risk_score pInactive paEmptyList
            bEmpty (.response none)).hybrid_methodology
          = "60% rule-based + 40% Gemini" := by
  refine ⟨rfl, by simp, ?_, ?_, by norm_num, ?_⟩
  · simp only [RiskScoringEngine.calculate_overall_risk_score,
      GeminiRiskAnalyzer.analyze_wallet_risk,
      GeminiRiskAnalyzer.parse_gemini_response]
    rw [rule_pInactive_paEmptyList_bEmpty]
    norm_num [LLM_CONFIG_rule_based_weight, LLM_CONFIG_llm_weight]
    exact round2_fixed _ 5105 (by norm_num)
  · simp only [RiskScoringEngine.calculate_overall_risk_score]
    rw [rule_pInactive_paEmptyList_bEmpty]
    exact round2_fixed _ 5175 (by norm_num)
  · simp [RiskScoringEngine.calculate_overall_risk_score,
      GeminiRiskAnalyzer.analyze_wallet_risk,
      GeminiRiskAnalyzer.parse_gemini_response, qtruthy]

/-- **C5 (amended).** An unparsable LLM response is treated as a numeric
default score of 50 (with empty component scores), which the orchestrator
blends as `0.6*rule_based + 0.4*50` and reports as an LLM score of 50 with
the blend methodology string; only a missing credential or a failed call
yield the no-LLM-data signal (`llm_risk_score = None`) and the 100%
rule-based fallback. -/
theorem C5_unparsable_default_50 (p : Patterns) (pa : ProtocolAnalysis)
    (b : Balances) :
    (GeminiRiskAnalyzer.analyze_wallet_risk (.response none)).llm_risk_score
        = some 50
      ∧ (GeminiRiskAnalyzer.analyze_wallet_risk
            (.response none)).component_scores = LlmComponents.empty
      ∧ (RiskScoringEngine.calculate_overall_risk_score p pa b
            (.response none)).hybrid_overall_score
          = round2 (LLM_CONFIG_rule_based_weight
                * RiskScoringEngine.rule_based_risk p pa b
              + LLM_CONFIG_llm_weight * 50)
      ∧ (RiskScoringEngine.calculate_overall_risk_score p pa b
            (.response none)).llm_based_overall_score = some 50
      ∧ (RiskScoringEngine.calculate_overall_risk_score p pa b
            (.response none)).hybrid_methodology = "60% rule-based + 40% Gemini"
      ∧ (GeminiRiskAnalyzer.analyze_wallet_risk .unavailable).llm_risk_score = none
      ∧ (GeminiRiskAnalyzer.analyze_wallet_risk .callFailed).llm_risk_score
          = none := by
  refine ⟨rfl, rfl, ?_, ?_, ?_, rfl, rfl⟩
  · simp only [RiskScoringEngine.calculate_overall_risk_score,
      GeminiRiskAnalyzer.analyze_wallet_risk,
      GeminiRiskAnalyzer.parse_gemini_response]
  · simp only [RiskScoringEngine.calculate_overall_risk_score,
      GeminiRiskAnalyzer.analyze_wallet_risk,
      GeminiRiskAnalyzer.parse_gemini_response, qtruthy]
    norm_num
    exact round2_fixed _ 5000 (by norm_num)
  · simp [RiskScoringEngine.calculate_overall_risk_score,
      GeminiRiskAnalyzer.analyze_wallet_risk,
      GeminiRiskAnalyzer.parse_gemini_response, qtruthy]

/-- **C6 counterexample.** On the scenario input (zero transactions, empty
protocols, empty tokens, zero ETH), the concentration component score is
90, not ~80 (= 50 base + 30 no-assets): the +10 very-low-ETH penalty also
fires; and the behavioral analyzer does not take its error-path fallback
(which returns 60) — it runs the normal path and returns 45. -/
theorem C6_scenario_counterexample :
    (AssetConcentrationAnalyzer.calculate_risk bEmpty).risk_score = 90
      ∧ (90 : ℚ) ≠ 80
      ∧ (BehavioralPatternAnalyzer.calculate_risk pInactive).risk_score = 45
      ∧ (BehavioralPatternAnalyzer.calculate_risk pErr).risk_score = 60
      ∧ (45 : ℚ) ≠ 60 :=
  ⟨conc_bEmpty_score, by norm_num, behav_pInactive_score, behav_pErr_score,
    by norm_num⟩

/-- **C6 (amended).** For the input with `total_transactions = 0`, an
empty protocol list, an empty token list and `eth_balance = 0`: transaction
score 90, protocol score 0, concentration score 90 (base 50, +30 no-assets,
+10 very-low-ETH), behavioral score 45 via its normal path (base 50 minus
the 5-point efficient-gas bonus; the error path is not taken because no
error marker is present), and the rule-based overall score is 51.75, in the
40s–60s range. -/
theorem C6_scenario_amended :
    (TransactionPatternAnalyzer.calculate_risk pInactive).risk_score = 90
      ∧ (ProtocolRiskAnalyzer.calculate_risk paEmptyList).risk_score = 0
      ∧ (AssetConcentrationAnalyzer.calculate_risk bEmpty).risk_score = 90
      ∧ (BehavioralPatternAnalyzer.calculate_risk pInactive).risk_score = 45
      ∧ RiskScoringEngine.rule_based_risk pInactive paEmptyList bEmpty = 207/4
      ∧ (40 : ℚ) ≤ 207/4 ∧ (207/4 : ℚ) ≤ 60 :=
  ⟨tx_pInactive_score, proto_paEmptyList_score, conc_bEmpty_score,
    behav_pInactive_score, rule_pInactive_paEmptyList_bEmpty,
    by norm_num, by norm_num⟩

/-- **C9 counterexample.** The transaction analyzer's early-return
branches (error marker, zero transactions) build a result without a
`metrics` entry, so not every analyzer result has all three fields. -/
theorem C9_metrics_counterexample :
    (TransactionPatternAnalyzer.calculate_risk pErr).metrics = none
      ∧ (TransactionPatternAnalyzer.calculate_risk pInactive).metrics = none := by
  constructor <;> simp [TransactionPatternAnalyzer.calculate_risk, pErr, pInactive]

/-- **C9 (amended).** Every analyzer result has `risk_score` in [0,100]
and a `reasons` list; the protocol, concentration and behavioral analyzers
always include `metrics`, while the transaction analyzer includes `metrics`
exactly on the non-early-return path (no error marker and nonzero
`total_transactions`). -/
theorem C9_component_result_shape (p : Patterns) (pa : ProtocolAnalysis)
    (b : Balances) :
    (0 ≤ (TransactionPatternAnalyzer.calculate_risk p).risk_score
        ∧ (TransactionPatternAnalyzer.calculate_risk p).risk_score ≤ 100)
      ∧ (0 ≤ (ProtocolRiskAnalyzer.calculate_risk pa).risk_score
          ∧ (ProtocolRiskAnalyzer.calculate_risk pa).risk_score ≤ 100)
      ∧ (0 ≤ (AssetConcentrationAnalyzer.calculate_risk b).risk_score
          ∧ (AssetConcentrationAnalyzer.calculate_risk b).risk_score ≤ 100)
      ∧ (0 ≤ (BehavioralPatternAnalyzer.calculate_risk p).risk_score
          ∧ (BehavioralPatternAnalyzer.calculate_risk p).risk_score ≤ 100)
      ∧ (ProtocolRiskAnalyzer.calculate_risk pa).metrics.isSome = true
      ∧ (AssetConcentrationAnalyzer.calculate_risk b).metrics.isSome = true
      ∧ (BehavioralPatternAnalyzer.calculate_risk p).metrics.isSome = true
      ∧ (TransactionPatternAnalyzer.calculate_risk p).metrics.isSome
          = (!p.hasError && !decide (p.total_transactions.getD 0 = 0)) := by
  refine ⟨transaction_score_bounds p, protocol_score_bounds pa,
    concentration_score_bounds b, behavioral_score_bounds p, ?_, ?_, ?_, ?_⟩
  · cases hp : pa.protocols with
    | none => simp [ProtocolRiskAnalyzer.calculate_risk, hp]
    | some ps =>
        by_cases he : ps.isEmpty <;>
          simp [ProtocolRiskAnalyzer.calculate_risk, hp, he]
  · simp [AssetConcentrationAnalyzer.calculate_risk]
  · simp only [BehavioralPatternAnalyzer.calculate_risk]
    split_ifs <;> simp
  · simp only [TransactionPatternAnalyzer.calculate_risk]
    by_cases h1 : p.hasError <;> by_cases h2 : p.total_transactions.getD 0 = 0 <;>
      simp [h1, h2]

/-- **C1 counterexample.** The code never validates or clamps the LLM's
returned overall score: a decoded response scoring 150 is reported as the
LLM-based overall score 150 and blended into a hybrid overall score of
111.3, both outside [0,100]. -/
theorem C1_range_counterexample :
    (RiskScoringEngine.calculate_overall_risk_score pErr paHigh bEmpty
          (.response (some j150))).llm_based_overall_score = some 150
      ∧ ¬((150 : ℚ) ≤ 100)
      ∧ (RiskScoringEngine.calculate_overall_risk_score pErr paHigh bEmpty
            (.response (some j150))).hybrid_overall_score = 1113/10
      ∧ ¬((1113 / 10 : ℚ) ≤ 100) := by
  refine ⟨?_, by norm_num, ?_, by norm_num⟩
  · simp only [RiskScoringEngine.calculate_overall_risk_score,
      GeminiRiskAnalyzer.analyze_wallet_risk,
      GeminiRiskAnalyzer.parse_gemini_response, j150, qtruthy,
      Option.getD_some, Option.some.injEq]
    norm_num
    exact round2_fixed _ 15000 (by norm_num)
  · simp only [RiskScoringEngine.calculate_overall_risk_score,
      GeminiRiskAnalyzer.analyze_wallet_risk,
      GeminiRiskAnalyzer.parse_gemini_response, j150, Option.getD_some]
    rw [rule_pErr_paHigh_bEmpty]
    norm_num [LLM_CONFIG_rule_based_weight, LLM_CONFIG_llm_weight]
    exact round2_fixed _ 11130 (by norm_num)

/-- **C1 (amended).** Each of the four component analyzers returns a
`risk_score` in [0,100] for every input, and so does the rule-based
overall score; the hybrid overall score and the reported LLM-based
overall score lie in [0,100] provided the LLM-returned score itself lies
in [0,100] (the code does not enforce that bound on the LLM). -/
theorem C1_range_amended (p : Patterns) (pa : ProtocolAnalysis) (b : Balances)
    (o : LlmOutcome) (s : ℚ)
    (hs : (GeminiRiskAnalyzer.analyze_wallet_risk o).llm_risk_score = some s)
    (h0 : 0 ≤ s) (h1 : s ≤ 100) :
    (0 ≤ (TransactionPatternAnalyzer.calculate_risk p).risk_score
        ∧ (TransactionPatternAnalyzer.calculate_risk p).risk_score ≤ 100)
      ∧ (0 ≤ (ProtocolRiskAnalyzer.calculate_risk pa).risk_score
          ∧ (ProtocolRiskAnalyzer.calculate_risk pa).risk_score ≤ 100)
      ∧ (0 ≤ (AssetConcentrationAnalyzer.calculate_risk b).risk_score
          ∧ (AssetConcentrationAnalyzer.calculate_risk b).risk_score ≤ 100)
      ∧ (0 ≤ (BehavioralPatternAnalyzer.calculate_risk p).risk_score
          ∧ (BehavioralPatternAnalyzer.calculate_risk p).risk_score ≤ 100)
      ∧ (0 ≤ RiskScoringEngine.rule_based_risk p pa b
          ∧ RiskScoringEngine.rule_based_risk p pa b ≤ 100)
      ∧ (0 ≤ (RiskScoringEngine.calculate_overall_risk_score p pa b
              o).rule_based_overall_score
          ∧ (RiskScoringEngine.calculate_overall_risk_score p pa b
              o).rule_based_overall_score ≤ 100)
      ∧ (0 ≤ (RiskScoringEngine.calculate_overall_risk_score p pa b
              o).hybrid_overall_score
          ∧ (RiskScoringEngine.calculate_overall_risk_score p pa b
              o).hybrid_overall_score ≤ 100)
      ∧ (0 ≤ (RiskScoringEngine.calculate_overall_risk_score p pa b
              o).overall_risk_score
          ∧ (RiskScoringEngine.calculate_overall_risk_score p pa b
              o).overall_risk_score ≤ 100)
      ∧ (0 ≤ ((RiskScoringEngine.calculate_overall_risk_score p pa b
              o).llm_based_overall_score).getD 0
          ∧ ((RiskScoringEngine.calculate_overall_risk_score p pa b
              o).llm_based_overall_score).getD 0 ≤ 100) := by
  obtain ⟨hr0, hr1⟩ := rule_based_risk_bounds p pa b
  have hv0 : 0 ≤ LLM_CONFIG_rule_based_weight
      * RiskScoringEngine.rule_based_risk p pa b + LLM_CONFIG_llm_weight * s := by
    rw [LLM_CONFIG_rule_based_weight, LLM_CONFIG_llm_weight]
    linarith
  have hv1 : LLM_CONFIG_rule_based_weight
      * RiskScoringEngine.rule_based_risk p pa b + LLM_CONFIG_llm_weight * s
        ≤ 100 := by
    rw [LLM_CONFIG_rule_based_weight, LLM_CONFIG_llm_weight]
    linarith
  refine ⟨transaction_score_bounds p, protocol_score_bounds pa,
    concentration_score_bounds b, behavioral_score_bounds p, ⟨hr0, hr1⟩,
    ?_, ?_, ?_, ?_⟩
  · simp only [RiskScoringEngine.calculate_overall_risk_score]
    exact ⟨round2_nonneg _ hr0, round2_le_100 _ hr1⟩
  · simp only [RiskScoringEngine.calculate_overall_risk_score, hs]
    exact ⟨round2_nonneg _ hv0, round2_le_100 _ hv1⟩
  · simp only [RiskScoringEngine.calculate_overall_risk_score, hs]
    exact ⟨round2_nonneg _ hv0, round2_le_100 _ hv1⟩
  · by_cases hz : s = 0
    · simp [RiskScoringEngine.calculate_overall_risk_score, hs, qtruthy, hz]
    · have hq : qtruthy (some s) = true := by simp [qtruthy, hz]
      simp only [RiskScoringEngine.calculate_overall_risk_score, hs, hq,
        if_true, Option.getD_some]
      exact ⟨round2_nonneg _ h0, round2_le_100 _ h1⟩

/-- Witness for C1 (amended): a decoded response with in-range overall
score 50 at the inactive-wallet input. -/
theorem C1_range_amended_witness :
    (0 ≤ (TransactionPatternAnalyzer.calculate_risk pInactive).risk_score
        ∧ (TransactionPatternAnalyzer.calculate_risk pInactive).risk_score ≤ 100)
      ∧ (0 ≤ (ProtocolRiskAnalyzer.calculate_risk paEmptyList).risk_score
          ∧ (ProtocolRiskAnalyzer.calculate_risk paEmptyList).risk_score ≤ 100)
      ∧ (0 ≤ (AssetConcentrationAnalyzer.calculate_risk bEmpty).risk_score
          ∧ (AssetConcentrationAnalyzer.calculate_risk bEmpty).risk_score ≤ 100)
      ∧ (0 ≤ (BehavioralPatternAnalyzer.calculate_risk pInactive).risk_score
          ∧ (BehavioralPatternAnalyzer.calculate_risk pInactive).risk_score ≤ 100)
      ∧ (0 ≤ RiskScoringEngine.rule_based_risk pInactive paEmptyList bEmpty
          ∧ RiskScoringEngine.rule_based_risk pInactive paEmptyList bEmpty ≤ 100)
      ∧ (0 ≤ (RiskScoringEngine.calculate_overall_risk_score pInactive paEmptyList
              bEmpty (.response (some j50))).rule_based_overall_score
          ∧ (RiskScoringEngine.calculate_overall_risk_score pInactive paEmptyList
              bEmpty (.response (some j50))).rule_based_overall_score ≤ 100)
      ∧ (0 ≤ (RiskScoringEngine.calculate_overall_risk_score pInactive paEmptyList
              bEmpty (.response (some j50))).hybrid_overall_score
          ∧ (RiskScoringEngine.calculate_overall_risk_score pInactive paEmptyList
              bEmpty (.response (some j50))).hybrid_overall_score ≤ 100)
      ∧ (0 ≤ (RiskScoringEngine.calculate_overall_risk_score pInactive paEmptyList
              bEmpty (.response (some j50))).overall_risk_score
          ∧ (RiskScoringEngine.calculate_overall_risk_score pInactive paEmptyList
              bEmpty (.response (some j50))).overall_risk_score ≤ 100)
      ∧ (0 ≤ ((RiskScoringEngine.calculate_overall_risk_score pInactive paEmptyList
              bEmpty (.response (some j50))).llm_based_overall_score).getD 0
          ∧ ((RiskScoringEngine.calculate_overall_risk_score pInactive paEmptyList
              bEmpty (.response (some j50))).llm_based_overall_score).getD 0
            ≤ 100) :=
  C1_range_amended pInactive paEmptyList bEmpty (.response (some j50)) 50 rfl
    (by norm_num) (by norm_num)

end RiskAgent
